import Mathlib

/-!
# Verification of the SMS-to-YNAB transaction ingestion pipeline

A shallow embedding, in Lean, of the pure decision logic of the SMS
ingestion pipeline (Supabase edge function + shared modules), together
with proofs about its specified properties.

Conventions of the embedding:

* JavaScript numbers that hold currency amounts are modelled as `ℚ`
  (every comparison the code performs on them is against small decimal
  constants, where rational and IEEE-754 semantics agree); milliunit
  amounts are `ℤ`.
* `crypto.subtle.digest("SHA-256", ...)` is modelled by a full
  executable SHA-256 over byte lists (FIPS 180-4), with UTF-8 encoding
  of the input string.
* External I/O (the YNAB ledger, the Supabase table, the clock) is made
  explicit: ledger-call success is a `Bool` parameter, the correlation
  table is a list of records, and time-derived values (the window
  cutoff, `Date.now()`) are parameters.
* `String.slice(i, j)` / JS string operations are modelled on the
  character list (`String.data`); all strings the pipeline manipulates
  here are ASCII, where the two views agree.
-/

set_option maxRecDepth 4096

/-! ## SHA-256 (FIPS 180-4) over byte lists -/

/-- Truncate to a 32-bit word. -/
def w32 (n : Nat) : Nat := n % 4294967296

/-- Right-rotation of a 32-bit word. -/
def rotr (n x : Nat) : Nat := w32 (Nat.lor (x >>> n) (x <<< (32 - n)))

def ch (x y z : Nat) : Nat := Nat.xor (Nat.land x y) (Nat.land (Nat.xor x 4294967295) z)

def maj (x y z : Nat) : Nat := Nat.xor (Nat.xor (Nat.land x y) (Nat.land x z)) (Nat.land y z)

def bsig0 (x : Nat) : Nat := Nat.xor (Nat.xor (rotr 2 x) (rotr 13 x)) (rotr 22 x)

def bsig1 (x : Nat) : Nat := Nat.xor (Nat.xor (rotr 6 x) (rotr 11 x)) (rotr 25 x)

def ssig0 (x : Nat) : Nat := Nat.xor (Nat.xor (rotr 7 x) (rotr 18 x)) (x >>> 3)

def ssig1 (x : Nat) : Nat := Nat.xor (Nat.xor (rotr 17 x) (rotr 19 x)) (x >>> 10)

/-- The 64 SHA-256 round constants. -/
def sha256K : List Nat :=
  [1116352408, 1899447441, 3049323471, 3921009573, 961987163,
   1508970993, 2453635748, 2870763221, 3624381080, 310598401,
   607225278, 1426881987, 1925078388, 2162078206, 2614888103,
   3248222580, 3835390401, 4022224774, 264347078, 604807628,
   770255983, 1249150122, 1555081692, 1996064986, 2554220882,
   2821834349, 2952996808, 3210313671, 3336571891, 3584528711,
   113926993, 338241895, 666307205, 773529912, 1294757372,
   1396182291, 1695183700, 1986661051, 2177026350, 2456956037,
   2730485921, 2820302411, 3259730800, 3345764771, 3516065817,
   3600352804, 4094571909, 275423344, 430227734, 506948616,
   659060556, 883997877, 958139571, 1322822218, 1537002063,
   1747873779, 1955562222, 2024104815, 2227730452, 2361852424,
   2428436474, 2756734187, 3204031479, 3329325298]

/-- SHA-256 hash state: eight 32-bit words. -/
structure Sha256State where
  a : Nat
  b : Nat
  c : Nat
  d : Nat
  e : Nat
  f : Nat
  g : Nat
  h : Nat

/-- The SHA-256 initial hash value. -/
def sha256Init : Sha256State :=
  ⟨1779033703, 3144134277, 1013904242, 2773480762,
   1359893119, 2600822924, 528734635, 1541459225⟩

/-- One SHA-256 round, consuming one (round constant, schedule word) pair. -/
def sha256Round (st : Sha256State) (kw : Nat × Nat) : Sha256State :=
  let t1 := w32 (st.h + bsig1 st.e + ch st.e st.f st.g + kw.1 + kw.2)
  let t2 := w32 (bsig0 st.a + maj st.a st.b st.c)
  ⟨w32 (t1 + t2), st.a, st.b, st.c, w32 (st.d + t1), st.e, st.f, st.g⟩

/-- Group a byte list into big-endian 32-bit words (trailing partial group dropped;
the input is always block-aligned here). -/
def words32 : List Nat → List Nat
  | b0 :: b1 :: b2 :: b3 :: rest =>
      (b0 * 16777216 + b1 * 65536 + b2 * 256 + b3) :: words32 rest
  | _ => []

/-- Extend a 16-word block to the 64-word message schedule, appending `n` words. -/
def extendSchedule : List Nat → Nat → List Nat
  | w, 0 => w
  | w, n + 1 =>
      let len := w.length
      let nw := w32 (ssig1 (w.getD (len - 2) 0) + w.getD (len - 7) 0 +
                     ssig0 (w.getD (len - 15) 0) + w.getD (len - 16) 0)
      extendSchedule (w ++ [nw]) n

/-- Compress one 64-byte chunk into the running hash state. -/
def sha256Chunk (H : Sha256State) (chunk : List Nat) : Sha256State :=
  let W := extendSchedule (words32 chunk) 48
  let st := (sha256K.zip W).foldl sha256Round H
  ⟨w32 (H.a + st.a), w32 (H.b + st.b), w32 (H.c + st.c), w32 (H.d + st.d),
   w32 (H.e + st.e), w32 (H.f + st.f), w32 (H.g + st.g), w32 (H.h + st.h)⟩

/-- Split a list into 64-element chunks (fuel-driven; fuel ≥ length suffices). -/
def chunks64 : Nat → List Nat → List (List Nat)
  | 0, _ => []
  | _, [] => []
  | fuel + 1, l => l.take 64 :: chunks64 fuel (l.drop 64)

/-- The length of a message's bit count as eight big-endian bytes. -/
def lenBytes64 (n : Nat) : List Nat :=
  [(n >>> 56) % 256, (n >>> 48) % 256, (n >>> 40) % 256, (n >>> 32) % 256,
   (n >>> 24) % 256, (n >>> 16) % 256, (n >>> 8) % 256, n % 256]

/-- SHA-256 padding: a 1-bit, zeros to 56 mod 64, then the 64-bit bit length. -/
def padMsg (msg : List Nat) : List Nat :=
  let L := msg.length
  let k := (64 - (L + 9) % 64) % 64
  msg ++ [128] ++ List.replicate k 0 ++ lenBytes64 (8 * L)

/-- A 32-bit word as four big-endian bytes. -/
def wordBytes (x : Nat) : List Nat :=
  [(x >>> 24) % 256, (x >>> 16) % 256, (x >>> 8) % 256, x % 256]

/-- SHA-256 of a byte list: the 32 digest bytes. -/
def sha256 (msg : List Nat) : List Nat :=
  let padded := padMsg msg
  let final := (chunks64 padded.length padded).foldl sha256Chunk sha256Init
  wordBytes final.a ++ wordBytes final.b ++ wordBytes final.c ++ wordBytes final.d ++
  wordBytes final.e ++ wordBytes final.f ++ wordBytes final.g ++ wordBytes final.h

/-- UTF-8 encoding of one code point. -/
def utf8Char (c : Char) : List Nat :=
  let n := c.toNat
  if n < 128 then [n]
  else if n < 2048 then [192 + n / 64, 128 + n % 64]
  else if n < 65536 then [224 + n / 4096, 128 + n / 64 % 64, 128 + n % 64]
  else [240 + n / 262144, 128 + n / 4096 % 64, 128 + n / 64 % 64, 128 + n % 64]

/-- UTF-8 bytes of a string (`TextEncoder.encode`). -/
def utf8Bytes (s : String) : List Nat := s.data.flatMap utf8Char

/-- Lowercase hex digit for a value below 16. -/
def hexDigit (n : Nat) : Char :=
  if n < 10 then Char.ofNat (48 + n) else Char.ofNat (87 + n)

/-- Hex encoding of a byte list: each byte as two lowercase hex digits
(`b.toString(16).padStart(2, "0")` joined). -/
def hexChars (bs : List Nat) : List Char :=
  bs.flatMap (fun b => [hexDigit (b / 16 % 16), hexDigit (b % 16)])

/-- SHA-256 always emits exactly 32 bytes. -/
theorem sha256_length (msg : List Nat) : (sha256 msg).length = 32 := by
  simp [sha256, wordBytes]

/-- Hex encoding doubles the length. -/
theorem hexChars_length (bs : List Nat) : (hexChars bs).length = 2 * bs.length := by
  induction bs with
  | nil => simp [hexChars]
  | cons b t ih => simp [hexChars] at ih ⊢; omega

/-- SHA-256 sanity check against the FIPS 180-4 test vector for "abc". -/
theorem sha256_known_vector :
    String.mk (hexChars (sha256 (utf8Bytes "abc"))) =
      "ba7816bf8f01cfea414140de5dae2223b00361a396177a9cb410ff61f20015ad" := by
  decide

/-! ## JS string helpers -/

/-- JS `s.slice(0, n)` on an ASCII string: the first `n` characters. -/
def strTake (s : String) (n : Nat) : String := String.mk (s.data.take n)

/-- JS `s.toLowerCase()` (ASCII case folding). -/
def lowerStr (s : String) : String := String.mk (s.data.map Char.toLower)

/-- Whether `sub` occurs as a contiguous substring of `s` (`s.includes(sub)`). -/
def containsSub (s sub : String) : Bool := go s.data sub.data
where
  go : List Char → List Char → Bool
    | hay, needle =>
      match hay with
      | [] => needle.isEmpty
      | _ :: t => needle.isPrefixOf hay || go t needle

/-! ## Idempotency key generation — `parsers.ts` `makeImportId` -/

/-- The raw string hashed by `makeImportId`:
`sender|date|amountMilli|text` (template-literal concatenation). -/
def importRaw (sender date : String) (amountMilli : Int) (text : String) : String :=
  sender ++ "|" ++ date ++ "|" ++ toString amountMilli ++ "|" ++ text

/-- Source `makeImportId` from `parsers.ts`: SHA-256 of the raw string, hex-encoded,
truncated to the first 32 hex characters, with the primary kind tag `sms:`
in front. -/
def makeImportId (sender date : String) (amountMilli : Int) (text : String) : String :=
  "sms:" ++ String.mk ((hexChars (sha256 (utf8Bytes (importRaw sender date amountMilli text)))).take 32)

/-- JS `key.replace(/^sms:/, tag)`: replace the leading 4-character kind tag if
present (the derived import ids `fee:`, `ntf:`, `plt:`, `xfr:` are all minted
this way — no rehash). -/
def replaceKindTag (tag key : String) : String :=
  if key.data.take 4 = "sms:".data then tag ++ String.mk (key.data.drop 4) else key

/-- YNAB's maximum `import_id` length, per the source comment
("Create a shorter fee import ID to fit YNAB's 36 char limit"). -/
def YNAB_IMPORT_ID_MAX : Nat := 36

/-! ## Amount conversion — `gemini.ts` -/

/-- Source `toMilliunits`: `Math.round(amount * 1000)` (`Math.round` is
floor(x + 1/2), which is Mathlib's `round` on `ℚ`). -/
def toMilliunits (amount : ℚ) : Int := round (amount * 1000)

/-- The transaction direction as validated by the orchestrator. -/
inductive Direction
  | inflow
  | outflow
deriving DecidableEq, Repr

/-- Source `getSign`: `direction === "inflow" ? 1 : -1`. -/
def getSign (direction : Option Direction) : Int :=
  if direction = some Direction.inflow then 1 else -1

/-! ## Fee calculator — `fee-calculator.ts` -/

/-- A fee tier: amount must satisfy `amount > min && amount <= max`. -/
structure FeeTier where
  min : ℚ
  max : ℚ
  fee : ℚ
deriving DecidableEq, Repr

/-- A fee schedule for one (provider, transfer type) pair. -/
structure FeeSchedule where
  tiers : List FeeTier
  payee : String
  category : Option String
deriving DecidableEq, Repr

/-- The transfer types of `fee-calculator.ts` plus `pos` (emitted by the
classifier contract and passed through the same lookup). -/
inductive TransferType
  | same_network
  | cross_network
  | to_bank
  | from_bank
  | to_mobile
  | withdrawal
  | bill_payment
  | airtime
  | pos
  | unknown
deriving DecidableEq, Repr

/-- Provider identifiers. -/
inductive Provider
  | airtel
  | mtn
  | zamtel
  | absa
  | stanchart
  | unknown
deriving DecidableEq, Repr

/-- The static `FEE_CONFIG` table, parameterised by the `FEE_CATEGORY_NAME`
environment value (`cat`). Tier data transcribed from `fee-calculator.ts`. -/
def FEE_CONFIG (cat : Option String) : Provider → TransferType → Option FeeSchedule
  | .airtel, .same_network => some
      { tiers := [⟨0, 150, 0.58⟩, ⟨150, 300, 1.1⟩, ⟨300, 500, 1.2⟩,
                  ⟨500, 1000, 2.0⟩, ⟨1000, 3000, 3.6⟩, ⟨3000, 5000, 5.0⟩,
                  ⟨5000, 10000, 7.0⟩],
        payee := "Airtel", category := cat }
  | .airtel, .cross_network => some { tiers := [], payee := "Airtel", category := cat }
  | .airtel, .to_bank => some { tiers := [], payee := "Airtel", category := cat }
  | .airtel, .withdrawal => some { tiers := [], payee := "Airtel", category := cat }
  | .airtel, .airtime => some { tiers := [], payee := "Airtel", category := cat }
  | .airtel, .bill_payment => some { tiers := [], payee := "Airtel", category := cat }
  | .mtn, .same_network => some
      { tiers := [⟨0, 150, 0.58⟩, ⟨150, 300, 1.1⟩, ⟨300, 500, 1.2⟩,
                  ⟨500, 1000, 2.0⟩, ⟨1000, 3000, 3.8⟩, ⟨3000, 5000, 5.0⟩,
                  ⟨5000, 10000, 7.0⟩],
        payee := "MTN", category := cat }
  | .zamtel, .same_network => some { tiers := [], payee := "Zamtel", category := cat }
  | .absa, .to_mobile => some
      { tiers := [⟨0, 1000000, 10.0⟩], payee := "Absa", category := cat }
  | .absa, .withdrawal => some
      { tiers := [⟨0, 1000000, 20.0⟩], payee := "Absa", category := cat }
  | .absa, .bill_payment => some { tiers := [], payee := "Absa", category := cat }
  | _, _ => none

/-- Result of a fee calculation. -/
structure FeeResult where
  fee : Option ℚ
  payee : Option String
  category : Option String
  configured : Bool
deriving DecidableEq, Repr

/-- Source `calculateFee` from `fee-calculator.ts`. -/
def calculateFee (cat : Option String) (p : Provider) (t : TransferType) (amount : ℚ) :
    FeeResult :=
  match FEE_CONFIG cat p t with
  | none => ⟨none, none, none, false⟩
  | some s =>
    if s.tiers = [] then ⟨some 0, some s.payee, s.category, true⟩
    else
      match s.tiers.find? (fun tr => decide (tr.min < amount) && decide (amount ≤ tr.max)) with
      | some tr => ⟨some tr.fee, some s.payee, s.category, true⟩
      | none => ⟨none, some s.payee, s.category, true⟩

/-- Source `senderToProvider` from `fee-calculator.ts`: case-insensitive substring
match against the provider keyword table. -/
def senderToProvider (sender : String) : Provider :=
  let s := lowerStr sender
  if containsSub s "airtel" then .airtel
  else if containsSub s "mtn" then .mtn
  else if containsSub s "zamtel" || containsSub s "zampay" then .zamtel
  else if containsSub s "absa" then .absa
  else if containsSub s "stanchart" || containsSub s "standard chartered" then .stanchart
  else .unknown

/-! ## Directory cache — `ynab-lookup.ts` -/

structure YnabAccount where
  id : String
  name : String
  accountType : String
  deleted : Bool
  transfer_payee_id : String
deriving DecidableEq, Repr

structure YnabCategory where
  id : String
  name : String
  deleted : Bool
  category_group_id : String
deriving DecidableEq, Repr

structure YnabPayee where
  id : String
  name : String
  deleted : Bool
  transfer_account_id : Option String
deriving DecidableEq, Repr

/-- One snapshot of the directory cache (its `fetchedAt`/TTL handling is
clock-driven and not modelled; every lookup below is over one snapshot). -/
structure YnabCache where
  accounts : List YnabAccount
  categories : List YnabCategory
  payees : List YnabPayee
deriving Repr

/-- Source `findAccountByName`: first account whose lowercased name equals the
lowercased query and which is not soft-deleted. -/
def findAccountByName (cache : YnabCache) (name : String) : Option YnabAccount :=
  cache.accounts.find? (fun a => lowerStr a.name == lowerStr name && !a.deleted)

def getAccountIdByName (cache : YnabCache) (name : String) : Option String :=
  (findAccountByName cache name).map (·.id)

/-- Source `findCategoryByName`. -/
def findCategoryByName (cache : YnabCache) (name : String) : Option YnabCategory :=
  cache.categories.find? (fun c => lowerStr c.name == lowerStr name && !c.deleted)

def getCategoryIdByName (cache : YnabCache) (name : String) : Option String :=
  (findCategoryByName cache name).map (·.id)

/-- Source `findPayeeByName`. -/
def findPayeeByName (cache : YnabCache) (name : String) : Option YnabPayee :=
  cache.payees.find? (fun p => lowerStr p.name == lowerStr name && !p.deleted)

def getPayeeIdByName (cache : YnabCache) (name : String) : Option String :=
  (findPayeeByName cache name).map (·.id)

/-- Source `getAllCategoryNames`: non-deleted categories whose name does not start
with the internal marker `Internal:`. -/
def getAllCategoryNames (cache : YnabCache) : List String :=
  (cache.categories.filter
    (fun c => !c.deleted && !(c.name.startsWith "Internal:"))).map (·.name)

/-- Source `getAllPayeeNames`: non-deleted payees that are not transfer placeholders
(null `transfer_account_id`). -/
def getAllPayeeNames (cache : YnabCache) : List String :=
  (cache.payees.filter
    (fun p => !p.deleted && p.transfer_account_id = none)).map (·.name)

/-! ## Account routing — `config.ts` + `routing.ts` -/

inductive RouteSource
  | ending_hint
  | sender_mapping
  | fallback_created
  | fallback_existing
  | failed
deriving DecidableEq, Repr

structure RoutingResult where
  accountId : Option String
  accountName : Option String
  source : RouteSource
deriving DecidableEq, Repr

/-- The static `SENDER_TO_ACCOUNT` table from `config.ts` (keys lowercased). -/
def SENDER_TO_ACCOUNT : List (String × String) :=
  [("airtelmoney", "Airtel Money"), ("momo", "MTN MoMo"), ("115", "Zamtel Money"),
   ("absa", "Absa Current"), ("absa_zm", "Absa Current"),
   ("stanchart", "Stanchart Current"), ("stanchartzm", "Stanchart Current")]

/-- Source `getAccountNameBySender`: table lookup on the lowercased sender. -/
def getAccountNameBySender (sender : String) : Option String :=
  (SENDER_TO_ACCOUNT.find? (fun kv => kv.1 == lowerStr sender)).map (·.2)

/-- Source `getAccountNameByEnding` over the `ACCOUNT_ENDINGS` environment map
(supplied as an association list). -/
def getAccountNameByEnding (endings : List (String × String)) (e : String) : Option String :=
  (endings.find? (fun kv => kv.1 == e)).map (·.2)

def FALLBACK_ACCOUNT_NAME : String := "Unknown Imports"

/-- Try to match `/ending\s+(\d{4})/i` at the head of the character list:
the literal `ending` (case-insensitive), one or more whitespace characters,
then four digits. -/
def matchEndingAt (cs : List Char) : Option String :=
  match cs with
  | c1 :: c2 :: c3 :: c4 :: c5 :: c6 :: rest =>
    if [c1.toLower, c2.toLower, c3.toLower, c4.toLower, c5.toLower, c6.toLower] =
        ['e', 'n', 'd', 'i', 'n', 'g'] then
      match rest with
      | w :: rest2 =>
        if w.isWhitespace then
          match rest2.dropWhile Char.isWhitespace with
          | d1 :: d2 :: d3 :: d4 :: _ =>
            if d1.isDigit && d2.isDigit && d3.isDigit && d4.isDigit then
              some (String.mk [d1, d2, d3, d4])
            else none
          | _ => none
        else none
      | [] => none
    else none
  | _ => none

/-- Scan left to right for the first regex match (JS `String.match`). -/
def scanEnding : List Char → Option String
  | [] => none
  | c :: cs =>
    match matchEndingAt (c :: cs) with
    | some r => some r
    | none => scanEnding cs

/-- Source `extractAccountEnding` from `routing.ts`. -/
def extractAccountEnding (text : String) : Option String :=
  scanEnding text.data

/-- Source `ensureFallbackAccount`: reuse the cached fallback account, else create it
(`createResult` is the id the ledger returns, `none` when creation throws). -/
def ensureFallbackAccount (cache : YnabCache) (createResult : Option String) :
    RoutingResult :=
  match findAccountByName cache FALLBACK_ACCOUNT_NAME with
  | some a => ⟨some a.id, some FALLBACK_ACCOUNT_NAME, .fallback_existing⟩
  | none =>
    match createResult with
    | some newId => ⟨some newId, some FALLBACK_ACCOUNT_NAME, .fallback_created⟩
    | none => ⟨none, none, .failed⟩

/-- Priority 1 of `resolveAccountId`: a mapped, cache-resolvable ending hint. -/
def endingRoute (endings : List (String × String)) (cache : YnabCache) (text : String) :
    Option RoutingResult :=
  (extractAccountEnding text).bind fun e =>
    (getAccountNameByEnding endings e).bind fun n =>
      (getAccountIdByName cache n).map fun i => ⟨some i, some n, .ending_hint⟩

/-- Priority 2 of `resolveAccountId`: the sender mapping (`if (sender)` guards
against the absent and the empty sender). -/
def senderRoute (cache : YnabCache) (sender : Option String) : Option RoutingResult :=
  sender.bind fun s =>
    if s.data = [] then none
    else
      (getAccountNameBySender s).bind fun n =>
        (getAccountIdByName cache n).map fun i => ⟨some i, some n, .sender_mapping⟩

/-- Source `resolveAccountId` from `routing.ts`: ending hint, then sender mapping,
then the fallback account. -/
def resolveAccountId (endings : List (String × String)) (cache : YnabCache)
    (createResult : Option String) (text : String) (sender : Option String) :
    RoutingResult :=
  match endingRoute endings cache text with
  | some r => r
  | none =>
    match senderRoute cache sender with
    | some r => r
    | none => ensureFallbackAccount cache createResult

/-! ## Correlation store — `supabase-client.ts` -/

/-- Lexicographic order on character lists by code point (the order JS string
comparison and the store's ISO-timestamp comparison induce on these ASCII
strings). -/
def lexLeChars : List Char → List Char → Bool
  | [], _ => true
  | _ :: _, [] => false
  | a :: as, b :: bs =>
    if a.toNat < b.toNat then true
    else if b.toNat < a.toNat then false
    else lexLeChars as bs

/-- Executable `a <= b` on strings. -/
def strLe (a b : String) : Bool := lexLeChars a.data b.data

theorem lexLeChars_refl : ∀ as, lexLeChars as as = true := by
  intro as
  induction as with
  | nil => rfl
  | cons a as ih => simp [lexLeChars, ih]

theorem lexLeChars_head (a b : Char) (as bs : List Char)
    (h : lexLeChars (a :: as) (b :: bs) = true) : a.toNat ≤ b.toNat := by
  by_contra hc
  have h1 : ¬a.toNat < b.toNat := by omega
  have h2 : b.toNat < a.toNat := by omega
  simp [lexLeChars, h1, h2] at h

theorem lexLeChars_total : ∀ as bs, lexLeChars as bs = true ∨ lexLeChars bs as = true := by
  intro as
  induction as with
  | nil => intro bs; exact Or.inl rfl
  | cons a as ih =>
    intro bs
    cases bs with
    | nil => exact Or.inr rfl
    | cons b bs =>
      by_cases h1 : a.toNat < b.toNat
      · left
        simp [lexLeChars, h1]
      · by_cases h2 : b.toNat < a.toNat
        · right
          simp [lexLeChars, h1, h2]
        · rcases ih bs with h | h
          · left
            simp [lexLeChars, h1, h2, h]
          · right
            simp [lexLeChars, h1, h2, h]

theorem lexLeChars_trans : ∀ as bs cs, lexLeChars as bs = true →
    lexLeChars bs cs = true → lexLeChars as cs = true := by
  intro as
  induction as with
  | nil => intro bs cs _ _; rfl
  | cons a as ih =>
    intro bs cs h1 h2
    cases bs with
    | nil => simp [lexLeChars] at h1
    | cons b bs =>
      cases cs with
      | nil => simp [lexLeChars] at h2
      | cons c cs =>
        have hab := lexLeChars_head a b as bs h1
        have hbc := lexLeChars_head b c bs cs h2
        by_cases h3 : a.toNat < c.toNat
        · simp [lexLeChars, h3]
        · have hab2 : ¬a.toNat < b.toNat := by omega
          have hba : ¬b.toNat < a.toNat := by omega
          have hbc2 : ¬b.toNat < c.toNat := by omega
          have hcb : ¬c.toNat < b.toNat := by omega
          have hca : ¬c.toNat < a.toNat := by omega
          simp only [lexLeChars, if_neg hab2, if_neg hba] at h1
          simp only [lexLeChars, if_neg hbc2, if_neg hcb] at h2
          simp only [lexLeChars, if_neg h3, if_neg hca]
          exact ih bs cs h1 h2

/-- One `sms_context` row. `received_at` is an ISO-8601 UTC string of fixed
format, whose lexicographic order is its chronological order. -/
structure SmsContextRecord where
  id : Option String
  sender : String
  sms_text : String
  received_at : String
  amount : Option ℚ
  direction : Option String
  account_ending : Option String
  ynab_transaction_id : Option String
  ynab_account_id : Option String
  import_id : Option String
  is_primary : Bool
  correlated_with : Option String
  fee_applied : Bool
deriving DecidableEq, Repr

/-- Newest-first order on records (the query's `order=received_at.desc`). -/
def recDesc (a b : SmsContextRecord) : Prop :=
  strLe b.received_at a.received_at = true

instance : DecidableRel recDesc := fun a b =>
  inferInstanceAs (Decidable (strLe b.received_at a.received_at = true))

instance : IsTotal SmsContextRecord recDesc :=
  ⟨fun a b => lexLeChars_total b.received_at.data a.received_at.data⟩

instance : IsTrans SmsContextRecord recDesc :=
  ⟨fun _ _ _ h1 h2 => lexLeChars_trans _ _ _ h2 h1⟩

/-- Source `findRecentPrimaryTransactions`: rows for the same sender (`ilike`,
i.e. case-insensitive equality), `is_primary = true`, `fee_applied = false`,
`received_at >= cutoff`, newest first. `cutoff` is the ISO string of
`Date.now() - withinMinutes*60*1000` (default `withinMinutes = 5`),
supplied by the caller since the clock is external. -/
def findRecentPrimaryTransactions (db : List SmsContextRecord) (sender cutoff : String) :
    List SmsContextRecord :=
  List.insertionSort recDesc
    (db.filter fun r =>
      lowerStr r.sender == lowerStr sender && r.is_primary && !r.fee_applied &&
        strLe cutoff r.received_at)

/-- The default correlation window, in minutes. -/
def DEFAULT_WITHIN_MINUTES : Nat := 5

/-- Source `findMatchingTransaction`: exact-amount match preferred when an amount is
supplied, else the most recent candidate; `null` when no candidate. -/
def findMatchingTransaction (db : List SmsContextRecord) (sender : String)
    (amount : Option ℚ) (cutoff : String) : Option SmsContextRecord :=
  let records := findRecentPrimaryTransactions db sender cutoff
  if records = [] then none
  else
    match amount with
    | some a =>
      match records.find? (fun r => r.amount == some a) with
      | some m => some m
      | none => records.head?
    | none => records.head?

/-! ## Orchestrator — transaction builds (`sms-webhook/index.ts` revisions) -/

/-- A transaction as submitted to the ledger's create-transaction call. -/
structure YnabTxn where
  account_id : String
  date : String
  amount : Int
  payee_id : Option String
  payee_name : Option String
  memo : String
  cleared : String
  approved : Bool
  import_id : String
  category_id : Option String
deriving DecidableEq, Repr

/-- The primary transaction build of the latest orchestrator revision
(`processWithYnab`, correlation-aware revision): `payee_id` only when the
extracted payee matches an existing payee, `payee_name` never set, memo from
the classifier with a 200-character raw-text fallback, `cleared: "cleared"`,
`approved: false`, import id over the full received timestamp. -/
def buildPrimaryTxn (cache : YnabCache) (accountId : String)
    (payee category memo : Option String) (amount : ℚ) (direction : Direction)
    (sender receivedAtIso text : String) : YnabTxn :=
  let payeeId := payee.bind (getPayeeIdByName cache)
  let categoryId := category.bind (getCategoryIdByName cache)
  let amountMilli := toMilliunits amount
  { account_id := accountId
    date := strTake receivedAtIso 10
    amount := amountMilli * getSign (some direction)
    payee_id := payeeId
    payee_name := none
    memo := memo.getD (strTake text 200)
    cleared := "cleared"
    approved := false
    import_id := makeImportId sender receivedAtIso amountMilli text
    category_id := categoryId }

/-- The category mapping table of the earlier webhook revision
(`sms-webhook/index.ts`). -/
def categoryMappings : List (String × String) :=
  [("Airtime", "🛜 Data / Airtime"), ("Data", "🛜 Data / Airtime"),
   ("Transfer", "Transfer"), ("Groceries", "🛒 Groceries"),
   ("Utilities", "🏠 Utilities"), ("Cash Withdrawal", "💵 Cash")]

/-- Category resolution of the earlier webhook revision: exact cache match on
the hint, else the emoji-mapping table, else none. -/
def webhookCategoryId (cache : YnabCache) (hint : Option String) : Option String :=
  hint.bind fun h =>
    match getCategoryIdByName cache h with
    | some i => some i
    | none =>
      ((categoryMappings.find? (fun kv => kv.1 == h)).map (·.2)).bind
        (getCategoryIdByName cache)

/-- The primary import id as computed by the earlier webhook revision
(`sms-webhook/index.ts` line 290-296): **only the calendar date**
(`receivedAtIso.slice(0, 10)`) is passed to `makeImportId`. -/
def webhookImportId (sender receivedAtIso text : String) (amount : ℚ) : String :=
  makeImportId sender (strTake receivedAtIso 10) (toMilliunits amount) text

/-- The primary transaction build of the earlier webhook revision
(`sms-webhook/index.ts` line 307-317): the extracted payee name is passed as
`payee_name` (no match against the payee directory). -/
def webhookBuildTxn (cache : YnabCache) (accountId : String)
    (payee categoryHint memo : Option String) (amount : ℚ) (direction : Direction)
    (sender receivedAtIso text : String) : YnabTxn :=
  { account_id := accountId
    date := strTake receivedAtIso 10
    amount := toMilliunits amount * getSign (some direction)
    payee_id := none
    payee_name := payee
    memo := memo.getD (strTake text 200)
    cleared := "cleared"
    approved := false
    import_id := webhookImportId sender receivedAtIso text amount
    category_id := webhookCategoryId cache categoryHint }

/-! ## Follow-up correlation branch (`processWithYnab`, correlation revision) -/

/-- The mobile-money number codes of `determineTransferTypeFromPhone`
(Airtel, MTN, Zamtel; leading zero optional). -/
def mobileMoneyCodes : List String :=
  ["097", "077", "97", "77", "096", "076", "96", "76", "095", "075", "95", "75"]

/-- Source `determineTransferTypeFromPhone`: strip whitespace and dashes, strip one
leading `260` country code, and classify by the mobile-money number codes. -/
def determineTransferTypeFromPhone (phone : String) : TransferType :=
  let noSep : List Char := phone.data.filter fun c => !c.isWhitespace && c ≠ '-'
  let cleaned : List Char :=
    if noSep.take 3 = ['2', '6', '0'] then noSep.drop 3 else noSep
  if mobileMoneyCodes.any (fun pre => pre.data.isPrefixOf cleaned) then .to_mobile
  else .unknown

/-- The transfer-type resolution of the follow-up branch: the classifier's tag
wins unless absent or `unknown`, in which case the recipient phone number (if
any) is classified. -/
def resolveFollowUpTransferType (tTag : Option TransferType) (rPhone : Option String) :
    Option TransferType :=
  match tTag, rPhone with
  | some tt, some p =>
    if tt = TransferType.unknown then some (determineTransferTypeFromPhone p) else some tt
  | some tt, none => some tt
  | none, some p => some (determineTransferTypeFromPhone p)
  | none, none => none

/-- The wire string of a transfer type (as interpolated into memos). -/
def ttName : TransferType → String
  | .same_network => "same_network"
  | .cross_network => "cross_network"
  | .to_bank => "to_bank"
  | .from_bank => "from_bank"
  | .to_mobile => "to_mobile"
  | .withdrawal => "withdrawal"
  | .bill_payment => "bill_payment"
  | .airtime => "airtime"
  | .pos => "pos"
  | .unknown => "unknown"

/-- The externally observable outcome of one run of the follow-up branch:
the ledger entries successfully created, the correlation rows whose
`fee_applied` was set true, the persisted follow-up→primary links
(`linkToCorrelation` calls), and the reported result. -/
structure FollowUpOutcome where
  created : List YnabTxn
  feeApplied : List String
  links : List (String × String)
  sent : Bool
  reason : String
deriving DecidableEq, Repr

/-- The follow-up branch of `processWithYnab` (correlation revision,
`aiParsed.is_follow_up` true). `cutoff` is the correlation-window lower bound
(ISO string of now − 5 minutes), `nowMs` is `Date.now()` (used only in the
fallback import id when the primary record carries none), and `feeCreateOk`
tells whether the ledger's create-transaction call succeeds or throws. -/
def followUpBranch (supabaseConfigured : Bool) (db : List SmsContextRecord)
    (cutoff : String) (sender receivedAtIso : String) (cache : YnabCache)
    (tTag : Option TransferType) (rPhone : Option String)
    (feeCat : Option String) (nowMs : Int) (feeCreateOk : Bool) : FollowUpOutcome :=
  if !supabaseConfigured then
    ⟨[], [], [], false, "Follow-up SMS cannot be correlated (Supabase not configured)"⟩
  else
    match findMatchingTransaction db sender none cutoff with
    | none => ⟨[], [], [], false, "Follow-up SMS but no primary transaction found to correlate"⟩
    | some primaryTxn =>
      match resolveFollowUpTransferType tTag rPhone, primaryTxn.ynab_account_id with
      | some tt, some primaryAccountId =>
        if tt = TransferType.unknown then
          ⟨[], [], [], false, "Follow-up SMS processed but no action needed"⟩
        else
          let provider := senderToProvider sender
          let feeResult := calculateFee feeCat provider tt (primaryTxn.amount.getD 0)
          match feeResult.fee with
          | some f =>
            if 0 < f then
              let feeCategoryId := feeResult.category.bind (getCategoryIdByName cache)
              let feePayeeId := feeResult.payee.bind (getPayeeIdByName cache)
              let feeImportId :=
                match primaryTxn.import_id with
                | some i => replaceKindTag "xfr:" i
                | none => "xfr:" ++ toString nowMs
              let feeTxn : YnabTxn :=
                { account_id := primaryAccountId
                  date := strTake receivedAtIso 10
                  amount := -(toMilliunits f)
                  payee_id := feePayeeId
                  payee_name := none
                  memo := "Transfer Fee (" ++ ttName tt ++ "): Ref: " ++
                    (primaryTxn.import_id.getD "correlated")
                  cleared := "cleared"
                  approved := false
                  import_id := feeImportId
                  category_id := feeCategoryId }
              if feeCreateOk then
                ⟨[feeTxn],
                 (match primaryTxn.id with | some pid => [pid] | none => []),
                 [], true, "Correlated fee created from follow-up SMS"⟩
              else
                ⟨[], [], [], false, "Failed to create correlated fee transaction"⟩
            else
              ⟨[], [], [], false, "Follow-up correlated but no fee configured for transfer type"⟩
          | none =>
            ⟨[], [], [], false, "Follow-up correlated but no fee configured for transfer type"⟩
      | _, _ => ⟨[], [], [], false, "Follow-up SMS processed but no action needed"⟩

/-! ## Theorems -/

/-- The tier lists of `FEE_CONFIG` are chained: each tier's `max` is the next
tier's `min`, so at most one tier can match any amount. -/
theorem feeConfigPairwise (cat : Option String) (p : Provider) (t : TransferType)
    (s : FeeSchedule) (h : FEE_CONFIG cat p t = some s) :
    List.Pairwise (fun u v : FeeTier => u.max ≤ v.min) s.tiers := by
  cases p <;> cases t <;> simp only [FEE_CONFIG] at h <;>
    first
      | (injection h with h'; subst h'; dsimp only; decide)
      | exact Option.noConfusion h

/-- In a chained tier list, `find?` returns exactly the tier that contains the
amount. -/
theorem tiers_find_unique (a : ℚ) :
    ∀ l : List FeeTier, List.Pairwise (fun u v : FeeTier => u.max ≤ v.min) l →
    ∀ tr, tr ∈ l → tr.min < a → a ≤ tr.max →
    l.find? (fun x => decide (x.min < a) && decide (a ≤ x.max)) = some tr := by
  intro l
  induction l with
  | nil => intro _ tr h; cases h
  | cons hd tl ih =>
    intro hp tr hmem h1 h2
    rcases List.mem_cons.mp hmem with rfl | hmem'
    · exact List.find?_cons_of_pos _ (by simp [h1, h2])
    · have hle : hd.max ≤ tr.min := (List.pairwise_cons.mp hp).1 tr hmem'
      have hna : ¬(a ≤ hd.max) := not_le.mpr (lt_of_le_of_lt hle h1)
      rw [List.find?_cons_of_neg _ (by simp [hna])]
      exact ih (List.pairwise_cons.mp hp).2 tr hmem' h1 h2

/-- C2: `calculateFee` returns `fee=null, configured=false` for an absent
schedule; `fee=0, configured=true` for an empty tier list; the flat fee of the
unique containing tier `(min, max]` when one matches; and `fee=null,
configured=true` when the amount falls outside every tier of a non-empty
schedule — never defaulting to zero or to the nearest tier. -/
theorem calculateFee_spec (cat : Option String) (p : Provider) (t : TransferType) (a : ℚ) :
    (FEE_CONFIG cat p t = none →
      calculateFee cat p t a = ⟨none, none, none, false⟩) ∧
    (∀ s, FEE_CONFIG cat p t = some s → s.tiers = [] →
      calculateFee cat p t a = ⟨some 0, some s.payee, s.category, true⟩) ∧
    (∀ s tr, FEE_CONFIG cat p t = some s → tr ∈ s.tiers → tr.min < a → a ≤ tr.max →
      calculateFee cat p t a = ⟨some tr.fee, some s.payee, s.category, true⟩) ∧
    (∀ s, FEE_CONFIG cat p t = some s → s.tiers ≠ [] →
      (∀ tr ∈ s.tiers, ¬(tr.min < a ∧ a ≤ tr.max)) →
      calculateFee cat p t a = ⟨none, some s.payee, s.category, true⟩) := by
  refine ⟨fun h => by simp [calculateFee, h], fun s hs ht => by simp [calculateFee, hs, ht],
    ?_, ?_⟩
  · intro s tr hs hmem h1 h2
    have hp := feeConfigPairwise cat p t s hs
    have hf := tiers_find_unique a s.tiers hp tr hmem h1 h2
    have hne : s.tiers ≠ [] := by
      intro he
      rw [he] at hmem
      cases hmem
    simp [calculateFee, hs, hne, hf]
  · intro s hs hne hout
    have hf : s.tiers.find? (fun x => decide (x.min < a) && decide (a ≤ x.max)) = none := by
      rw [List.find?_eq_none]
      intro x hx
      have := hout x hx
      simp only [Bool.and_eq_true, decide_eq_true_eq]
      exact fun hcon => this hcon
    simp [calculateFee, hs, hne, hf]

/-- Witness for C2: the spec's concrete instances. Amount 150 hits the
`(0,150]` tier (0.58), 150.01 the `(150,300]` tier (1.1), 0 and −5 fall
outside all tiers, an empty tier list (airtime) is explicitly free, and an
absent schedule is unconfigured. -/
theorem calculateFee_spec_witness :
    calculateFee none Provider.airtel TransferType.same_network 150 =
      ⟨some 0.58, some "Airtel", none, true⟩ ∧
    calculateFee none Provider.airtel TransferType.same_network 150.01 =
      ⟨some 1.1, some "Airtel", none, true⟩ ∧
    calculateFee none Provider.airtel TransferType.same_network 0 =
      ⟨none, some "Airtel", none, true⟩ ∧
    calculateFee none Provider.airtel TransferType.same_network (-5) =
      ⟨none, some "Airtel", none, true⟩ ∧
    calculateFee none Provider.airtel TransferType.airtime 1000 =
      ⟨some 0, some "Airtel", none, true⟩ ∧
    calculateFee none Provider.stanchart TransferType.same_network 100 =
      ⟨none, none, none, false⟩ := by
  refine ⟨?_, ?_, ?_, ?_, ?_, ?_⟩
  · exact (calculateFee_spec none .airtel .same_network 150).2.2.1 _ ⟨0, 150, 0.58⟩
      rfl (by dsimp only; exact List.mem_cons_self _ _) (by norm_num) (by norm_num)
  · exact (calculateFee_spec none .airtel .same_network 150.01).2.2.1 _ ⟨150, 300, 1.1⟩
      rfl (by dsimp only; exact List.mem_cons_of_mem _ (List.mem_cons_self _ _))
      (by norm_num) (by norm_num)
  · exact (calculateFee_spec none .airtel .same_network 0).2.2.2 _ rfl (by dsimp only; decide)
      (by dsimp only; with_unfolding_all decide)
  · exact (calculateFee_spec none .airtel .same_network (-5)).2.2.2 _ rfl (by dsimp only; decide)
      (by dsimp only; with_unfolding_all decide)
  · exact (calculateFee_spec none .airtel .airtime 1000).2.1 _ rfl rfl
  · exact (calculateFee_spec none .stanchart .same_network 100).1 rfl

/-- C9: every directory-cache lookup matches by case-insensitive exact name
and never yields a soft-deleted entry; the category name list excludes deleted
and `Internal:`-marked categories; the payee name list excludes deleted payees
and transfer placeholders (non-null `transfer_account_id`). -/
theorem directoryCache_spec (cache : YnabCache) (name : String) :
    (∀ a, findAccountByName cache name = some a →
      a.deleted = false ∧ lowerStr a.name = lowerStr name ∧ a ∈ cache.accounts) ∧
    (∀ c, findCategoryByName cache name = some c →
      c.deleted = false ∧ lowerStr c.name = lowerStr name ∧ c ∈ cache.categories) ∧
    (∀ p, findPayeeByName cache name = some p →
      p.deleted = false ∧ lowerStr p.name = lowerStr name ∧ p ∈ cache.payees) ∧
    (∀ n, n ∈ getAllCategoryNames cache →
      ∃ c ∈ cache.categories, c.name = n ∧ c.deleted = false ∧
        c.name.startsWith "Internal:" = false) ∧
    (∀ n, n ∈ getAllPayeeNames cache →
      ∃ p ∈ cache.payees, p.name = n ∧ p.deleted = false ∧
        p.transfer_account_id = none) := by
  refine ⟨?_, ?_, ?_, ?_, ?_⟩
  · intro a h
    have hp := List.find?_some h
    have hm := List.mem_of_find?_eq_some h
    simp only [Bool.and_eq_true, beq_iff_eq, Bool.not_eq_true'] at hp
    exact ⟨hp.2, hp.1, hm⟩
  · intro c h
    have hp := List.find?_some h
    have hm := List.mem_of_find?_eq_some h
    simp only [Bool.and_eq_true, beq_iff_eq, Bool.not_eq_true'] at hp
    exact ⟨hp.2, hp.1, hm⟩
  · intro p h
    have hp := List.find?_some h
    have hm := List.mem_of_find?_eq_some h
    simp only [Bool.and_eq_true, beq_iff_eq, Bool.not_eq_true'] at hp
    exact ⟨hp.2, hp.1, hm⟩
  · intro n hn
    rcases List.mem_map.mp hn with ⟨c, hc, rfl⟩
    rcases List.mem_filter.mp hc with ⟨hmem, hpred⟩
    simp only [Bool.and_eq_true, Bool.not_eq_true'] at hpred
    exact ⟨c, hmem, rfl, hpred.1, hpred.2⟩
  · intro n hn
    rcases List.mem_map.mp hn with ⟨p, hp, rfl⟩
    rcases List.mem_filter.mp hp with ⟨hmem, hpred⟩
    simp only [Bool.and_eq_true, Bool.not_eq_true', decide_eq_true_eq] at hpred
    exact ⟨p, hmem, rfl, hpred.1, hpred.2⟩

/-- Witness for C9, on a concrete snapshot holding a soft-deleted account, an
internal-marker category, and a transfer-placeholder payee. -/
theorem directoryCache_spec_witness :
    findAccountByName
      ⟨[⟨"a1", "Absa Current", "checking", true, "tp1"⟩,
        ⟨"a2", "Absa Current", "checking", false, "tp2"⟩], [], []⟩ "absa current" =
      some ⟨"a2", "Absa Current", "checking", false, "tp2"⟩ ∧
    (⟨"a2", "Absa Current", "checking", false, "tp2"⟩ : YnabAccount).deleted = false ∧
    lowerStr "Absa Current" = lowerStr "absa current" := by
  have h : findAccountByName
      ⟨[⟨"a1", "Absa Current", "checking", true, "tp1"⟩,
        ⟨"a2", "Absa Current", "checking", false, "tp2"⟩], [], []⟩ "absa current" =
      some ⟨"a2", "Absa Current", "checking", false, "tp2"⟩ := by decide
  have hspec := (directoryCache_spec
      ⟨[⟨"a1", "Absa Current", "checking", true, "tp1"⟩,
        ⟨"a2", "Absa Current", "checking", false, "tp2"⟩], [], []⟩ "absa current").1 _ h
  exact ⟨h, hspec.1, hspec.2.1⟩

/-- C5: account routing applies the three-tier priority with first match
winning: a resolvable ending hint beats everything; an ending hint whose
configured name does not resolve in the cache falls through to the sender
mapping; when neither resolves, the fixed fallback account is reused
(`fallback_existing`) or created with the ledger (`fallback_created`); and a
failed creation yields `failed` with no account id. -/
theorem routing_spec (endings : List (String × String)) (cache : YnabCache)
    (createResult : Option String) (text : String) (sender : Option String) :
    (∀ e n i, extractAccountEnding text = some e →
      getAccountNameByEnding endings e = some n → getAccountIdByName cache n = some i →
      resolveAccountId endings cache createResult text sender =
        ⟨some i, some n, RouteSource.ending_hint⟩) ∧
    (∀ e n, extractAccountEnding text = some e →
      getAccountNameByEnding endings e = some n → getAccountIdByName cache n = none →
      ∀ s m j, sender = some s → s.data ≠ [] →
        getAccountNameBySender s = some m → getAccountIdByName cache m = some j →
        resolveAccountId endings cache createResult text sender =
          ⟨some j, some m, RouteSource.sender_mapping⟩) ∧
    (endingRoute endings cache text = none → senderRoute cache sender = none →
      (∀ a, findAccountByName cache FALLBACK_ACCOUNT_NAME = some a →
        resolveAccountId endings cache createResult text sender =
          ⟨some a.id, some FALLBACK_ACCOUNT_NAME, RouteSource.fallback_existing⟩) ∧
      (findAccountByName cache FALLBACK_ACCOUNT_NAME = none →
        ∀ nid, createResult = some nid →
        resolveAccountId endings cache createResult text sender =
          ⟨some nid, some FALLBACK_ACCOUNT_NAME, RouteSource.fallback_created⟩) ∧
      (findAccountByName cache FALLBACK_ACCOUNT_NAME = none → createResult = none →
        resolveAccountId endings cache createResult text sender =
          ⟨none, none, RouteSource.failed⟩)) := by
  refine ⟨?_, ?_, ?_⟩
  · intro e n i he hn hi
    have hr : endingRoute endings cache text =
        some ⟨some i, some n, RouteSource.ending_hint⟩ := by
      simp [endingRoute, he, hn, hi]
    simp [resolveAccountId, hr]
  · intro e n he hn hi s m j hs hsne hm hj
    have hr : endingRoute endings cache text = none := by
      simp [endingRoute, he, hn, hi]
    have hr2 : senderRoute cache sender =
        some ⟨some j, some m, RouteSource.sender_mapping⟩ := by
      simp [senderRoute, hs, hsne, hm, hj]
    simp [resolveAccountId, hr, hr2]
  · intro h1 h2
    refine ⟨?_, ?_, ?_⟩
    · intro a ha
      simp [resolveAccountId, h1, h2, ensureFallbackAccount, ha]
    · intro hf nid hc
      simp [resolveAccountId, h1, h2, ensureFallbackAccount, hf, hc]
    · intro hf hc
      simp [resolveAccountId, h1, h2, ensureFallbackAccount, hf, hc]

/-- Witness for C5, on a concrete cache: the message carries `ending 4983`
which is mapped and resolvable, and the sender `Absa` is also mapped and
resolvable — the ending hint wins; dropping the account from the cache makes
the same message route by sender mapping; with an empty cache and a failing
create call, routing fails with no account id. -/
theorem routing_spec_witness :
    resolveAccountId [("4983", "Absa Savings")]
      ⟨[⟨"s1", "Absa Savings", "checking", false, "tp1"⟩,
        ⟨"c1", "Absa Current", "checking", false, "tp2"⟩], [], []⟩
      none "Transfer from account ending 4983 done." (some "Absa") =
      ⟨some "s1", some "Absa Savings", RouteSource.ending_hint⟩ ∧
    resolveAccountId [("4983", "Absa Savings")]
      ⟨[⟨"c1", "Absa Current", "checking", false, "tp2"⟩], [], []⟩
      none "Transfer from account ending 4983 done." (some "Absa") =
      ⟨some "c1", some "Absa Current", RouteSource.sender_mapping⟩ ∧
    resolveAccountId [] ⟨[], [], []⟩ none "hello" (some "nobody") =
      ⟨none, none, RouteSource.failed⟩ := by
  refine ⟨?_, ?_, ?_⟩
  · exact (routing_spec _ _ _ _ _).1 "4983" "Absa Savings" "s1"
      (by decide) (by decide) (by decide)
  · exact (routing_spec _ _ _ _ _).2.1 "4983" "Absa Savings" (by decide) (by decide)
      (by decide) "Absa" "Absa Current" "c1" rfl (by decide) (by decide) (by decide)
  · exact ((routing_spec _ _ _ _ _).2.2 (by decide) (by decide)).2.2 (by decide) rfl

/-- Membership in the correlation candidate list implies every filter of the
query: same sender (case-insensitive), primary, fee not yet applied, inside
the window. -/
theorem candidates_mem (db : List SmsContextRecord) (sender cutoff : String)
    (r : SmsContextRecord) (h : r ∈ findRecentPrimaryTransactions db sender cutoff) :
    r ∈ db ∧ lowerStr r.sender = lowerStr sender ∧ r.is_primary = true ∧
      r.fee_applied = false ∧ strLe cutoff r.received_at = true := by
  unfold findRecentPrimaryTransactions at h
  have h2 := (List.perm_insertionSort recDesc _).mem_iff.mp h
  rcases List.mem_filter.mp h2 with ⟨hdb, hp⟩
  simp only [Bool.and_eq_true, beq_iff_eq, Bool.not_eq_true', decide_eq_true_eq] at hp
  exact ⟨hdb, hp.1.1.1, hp.1.1.2, hp.1.2, hp.2⟩

/-- A returned match is one of the candidates. -/
theorem matching_mem (db : List SmsContextRecord) (sender : String) (amt : Option ℚ)
    (cutoff : String) (r : SmsContextRecord)
    (h : findMatchingTransaction db sender amt cutoff = some r) :
    r ∈ findRecentPrimaryTransactions db sender cutoff := by
  unfold findMatchingTransaction at h
  by_cases hc : findRecentPrimaryTransactions db sender cutoff = []
  · rw [if_pos hc] at h
    exact Option.noConfusion h
  · rw [if_neg hc] at h
    cases amt with
    | none => exact List.mem_of_mem_head? (Option.mem_def.mpr h)
    | some a =>
      dsimp only at h
      cases hf : (findRecentPrimaryTransactions db sender cutoff).find?
          (fun q => q.amount == some a) with
      | some m =>
        rw [hf] at h
        injection h with h3
        subst h3
        exact List.mem_of_find?_eq_some hf
      | none =>
        rw [hf] at h
        exact List.mem_of_mem_head? (Option.mem_def.mpr h)

/-- C8: the correlation match considers only candidates of the same sender
with `is_primary = true`, `fee_applied = false` inside the sliding window;
when an amount is supplied and some candidate carries exactly that amount, a
candidate with that amount is returned; otherwise the most recent candidate is
returned; and `null` is returned exactly when no candidate exists. -/
theorem correlationMatch_spec (db : List SmsContextRecord) (sender cutoff : String)
    (amt : Option ℚ) :
    (findMatchingTransaction db sender amt cutoff = none ↔
      findRecentPrimaryTransactions db sender cutoff = []) ∧
    (∀ r, findMatchingTransaction db sender amt cutoff = some r →
      r ∈ db ∧ lowerStr r.sender = lowerStr sender ∧ r.is_primary = true ∧
        r.fee_applied = false ∧ strLe cutoff r.received_at = true) ∧
    (∀ a, amt = some a →
      (∃ q ∈ findRecentPrimaryTransactions db sender cutoff, q.amount = some a) →
      ∃ r, findMatchingTransaction db sender amt cutoff = some r ∧ r.amount = some a) ∧
    (∀ r, findMatchingTransaction db sender amt cutoff = some r →
      (amt = none ∨ (∀ q ∈ findRecentPrimaryTransactions db sender cutoff, q.amount ≠ amt)) →
      ∀ q ∈ findRecentPrimaryTransactions db sender cutoff,
        strLe q.received_at r.received_at = true) := by
  refine ⟨⟨?_, ?_⟩, ?_, ?_, ?_⟩
  · intro h
    by_contra hc
    cases hcand : findRecentPrimaryTransactions db sender cutoff with
    | nil => exact hc hcand
    | cons hd tl =>
      unfold findMatchingTransaction at h
      rw [hcand] at h
      simp only [if_neg (List.cons_ne_nil hd tl)] at h
      cases amt with
      | none => exact Option.noConfusion h
      | some a =>
        dsimp only at h
        cases hf : (hd :: tl).find? (fun q => q.amount == some a) with
        | some m => rw [hf] at h; exact Option.noConfusion h
        | none => rw [hf] at h; exact Option.noConfusion h
  · intro h
    unfold findMatchingTransaction
    rw [if_pos h]
  · intro r h
    exact candidates_mem db sender cutoff r (matching_mem db sender amt cutoff r h)
  · intro a ha hex
    subst ha
    rcases hex with ⟨q, hq, hqa⟩
    have hne : findRecentPrimaryTransactions db sender cutoff ≠ [] := by
      intro he
      rw [he] at hq
      cases hq
    have hfind : ((findRecentPrimaryTransactions db sender cutoff).find?
        (fun x => x.amount == some a)).isSome := by
      rw [List.find?_isSome]
      exact ⟨q, hq, by simp [hqa]⟩
    cases hf : (findRecentPrimaryTransactions db sender cutoff).find?
        (fun x => x.amount == some a) with
    | none => rw [hf] at hfind; exact Bool.noConfusion hfind
    | some m =>
      refine ⟨m, ?_, ?_⟩
      · unfold findMatchingTransaction
        rw [if_neg hne]
        dsimp only
        rw [hf]
      · have := List.find?_some hf
        simpa using this
  · intro r h hno q hq
    have hhead : (findRecentPrimaryTransactions db sender cutoff).head? = some r := by
      unfold findMatchingTransaction at h
      have hne : findRecentPrimaryTransactions db sender cutoff ≠ [] := by
        intro he
        rw [he] at hq
        cases hq
      rw [if_neg hne] at h
      cases amt with
      | none => exact h
      | some a =>
        dsimp only at h
        rcases hno with hno | hno
        · exact Option.noConfusion hno
        · have hf : (findRecentPrimaryTransactions db sender cutoff).find?
              (fun x => x.amount == some a) = none := by
            rw [List.find?_eq_none]
            intro x hx
            simpa using hno x hx
          rw [hf] at h
          exact h
    have hsorted := List.sorted_insertionSort recDesc
      (db.filter fun x =>
        lowerStr x.sender == lowerStr sender && x.is_primary && !x.fee_applied &&
          strLe cutoff x.received_at)
    cases hcand : findRecentPrimaryTransactions db sender cutoff with
    | nil =>
      rw [hcand] at hq
      cases hq
    | cons hd tl =>
      have hr : hd = r := by
        rw [hcand] at hhead
        injection hhead
      subst hr
      rw [hcand] at hq
      unfold findRecentPrimaryTransactions at hcand
      rw [hcand] at hsorted
      rcases List.mem_cons.mp hq with rfl | hq2
      · exact lexLeChars_refl _
      · exact List.rel_of_sorted_cons hsorted q hq2

/-- A stored primary record used as concrete test data. -/
def sampleRec1 : SmsContextRecord :=
  ⟨some "p1", "Absa", "You have sent ZMW 100.00.", "2026-01-01T23:50:00.000Z",
   some 100, some "outflow", none, some "t1", some "acc1",
   some "sms:aaaabbbbccccddddeeeeffff00001111", true, none, false⟩

/-- A more recent stored primary record used as concrete test data. -/
def sampleRec2 : SmsContextRecord :=
  ⟨some "p2", "Absa", "You have sent ZMW 200.00.", "2026-01-01T23:58:00.000Z",
   some 200, some "outflow", none, some "t2", some "acc2",
   some "sms:22223333444455556666777788889999", true, none, false⟩

/-- Witness for C8: with two stored candidates, querying amount 100 returns a
record with exactly that amount (not the more recent one), and the amount-less
query's result is at least as recent as every candidate. -/
theorem correlationMatch_spec_witness :
    (∃ r, findMatchingTransaction [sampleRec1, sampleRec2] "absa" (some 100)
        "2026-01-01T23:48:00.000Z" = some r ∧ r.amount = some 100) ∧
    (∀ q ∈ findRecentPrimaryTransactions [sampleRec1, sampleRec2] "absa"
        "2026-01-01T23:48:00.000Z",
        strLe q.received_at sampleRec2.received_at = true) := by
  constructor
  · exact (correlationMatch_spec [sampleRec1, sampleRec2] "absa"
      "2026-01-01T23:48:00.000Z" (some 100)).2.2.1 100 rfl
      ⟨sampleRec1, by decide, by decide⟩
  · exact (correlationMatch_spec [sampleRec1, sampleRec2] "absa"
      "2026-01-01T23:48:00.000Z" none).2.2.2 sampleRec2 (by decide) (Or.inl rfl)

/-- C10: on the follow-up path the primary record is mutated only after the
correlated fee entry is successfully created: when the ledger call throws, no
record is marked `fee_applied` and the run reports a failure; conversely a
marked record implies the ledger call succeeded, the run reported success, and
an entry was created. -/
theorem followUp_failure_isolation (supabaseConfigured : Bool)
    (db : List SmsContextRecord) (cutoff sender receivedAtIso : String)
    (cache : YnabCache) (tTag : Option TransferType) (rPhone : Option String)
    (feeCat : Option String) (nowMs : Int) (feeCreateOk : Bool) :
    (feeCreateOk = false →
      (followUpBranch supabaseConfigured db cutoff sender receivedAtIso cache
        tTag rPhone feeCat nowMs feeCreateOk).feeApplied = [] ∧
      (followUpBranch supabaseConfigured db cutoff sender receivedAtIso cache
        tTag rPhone feeCat nowMs feeCreateOk).sent = false) ∧
    ((followUpBranch supabaseConfigured db cutoff sender receivedAtIso cache
        tTag rPhone feeCat nowMs feeCreateOk).feeApplied ≠ [] →
      feeCreateOk = true ∧
      (followUpBranch supabaseConfigured db cutoff sender receivedAtIso cache
        tTag rPhone feeCat nowMs feeCreateOk).sent = true ∧
      (followUpBranch supabaseConfigured db cutoff sender receivedAtIso cache
        tTag rPhone feeCat nowMs feeCreateOk).created ≠ []) := by
  unfold followUpBranch
  constructor
  · intro hfail
    subst hfail
    repeat' split
    all_goals try simp_all
    all_goals refine ⟨?_, ?_⟩ <;> split <;> try split
    all_goals simp_all
  · intro hmark
    revert hmark
    repeat' split
    all_goals intro hmark
    all_goals try simp_all
    all_goals revert hmark
    all_goals split <;> try split
    all_goals intro hmark
    all_goals simp_all

/-- Witness for C10: a concrete follow-up run whose ledger call throws leaves
`fee_applied` untouched and reports failure. -/
theorem followUp_failure_isolation_witness :
    (followUpBranch true [sampleRec1] "2026-01-01T23:48:00.000Z" "Absa"
      "2026-01-01T23:52:00.000Z" ⟨[], [], []⟩ none (some "0951234567") none 0
      false).feeApplied = [] ∧
    (followUpBranch true [sampleRec1] "2026-01-01T23:48:00.000Z" "Absa"
      "2026-01-01T23:52:00.000Z" ⟨[], [], []⟩ none (some "0951234567") none 0
      false).sent = false :=
  (followUp_failure_isolation true [sampleRec1] "2026-01-01T23:48:00.000Z" "Absa"
    "2026-01-01T23:52:00.000Z" ⟨[], [], []⟩ none (some "0951234567") none 0
    false).1 rfl

/-- String append acts as list append on the character data. -/
theorem strApp_data (a b : String) : (a ++ b).data = a.data ++ b.data := rfl

/-- String length is the character count. -/
theorem strLength_data (s : String) : s.length = s.data.length := rfl

/-- The character data of a primary import id: the `sms:` tag followed by the
32 truncated hex digits. -/
theorem makeImportId_data (sender date : String) (amountMilli : Int) (text : String) :
    (makeImportId sender date amountMilli text).data =
      's' :: 'm' :: 's' :: ':' ::
        (hexChars (sha256 (utf8Bytes (importRaw sender date amountMilli text)))).take 32 :=
  rfl

/-- Tag replacement on a primary key always fires and substitutes the first
four characters. -/
theorem replaceKindTag_makeImportId (tag sender date : String) (amountMilli : Int)
    (text : String) :
    replaceKindTag tag (makeImportId sender date amountMilli text) =
      tag ++ String.mk ((makeImportId sender date amountMilli text).data.drop 4) := by
  have hc : (makeImportId sender date amountMilli text).data.take 4 = "sms:".data := by
    rw [makeImportId_data]
    rfl
  unfold replaceKindTag
  rw [if_pos hc]

/-- Every primary import id has exactly 36 characters. -/
theorem makeImportId_length (sender date : String) (amountMilli : Int) (text : String) :
    (makeImportId sender date amountMilli text).length = 36 := by
  rw [strLength_data, makeImportId_data]
  simp [List.length_take, hexChars_length, sha256_length]

/-- Appending the same suffix to different equal-length tags yields different
strings. -/
theorem tagged_ne (t1 t2 : String) (r : List Char) (h : t1.data ≠ t2.data) :
    t1 ++ String.mk r ≠ t2 ++ String.mk r := by
  intro he
  apply h
  have hd : t1.data ++ r = t2.data ++ r := by
    have h2 := congrArg String.data he
    rwa [strApp_data, strApp_data] at h2
  exact List.append_cancel_right hd

/-- C6: every derived entry key (transfer fee `fee:`, notification fee `ntf:`,
placeholder fee `plt:`, correlated fee `xfr:`) equals the primary key with
only the 4-character kind tag replaced — no rehash — so it is a deterministic
function of its parent key, distinct from the parent and from every other
kind's key for the same message; and all keys, primary and derived, have the
fixed length 36, within the ledger's maximum idempotency-key length. -/
theorem derivedKeys_spec (sender date : String) (amountMilli : Int) (text : String) :
    (makeImportId sender date amountMilli text).length = 36 ∧
    (makeImportId sender date amountMilli text).length ≤ YNAB_IMPORT_ID_MAX ∧
    (∀ tag : String, replaceKindTag tag (makeImportId sender date amountMilli text) =
      tag ++ String.mk ((makeImportId sender date amountMilli text).data.drop 4)) ∧
    (∀ tag : String, tag.data.length = 4 →
      (replaceKindTag tag (makeImportId sender date amountMilli text)).length = 36 ∧
      (replaceKindTag tag (makeImportId sender date amountMilli text)).length ≤
        YNAB_IMPORT_ID_MAX) ∧
    (∀ t1 t2 : String, t1.data ≠ t2.data →
      replaceKindTag t1 (makeImportId sender date amountMilli text) ≠
        replaceKindTag t2 (makeImportId sender date amountMilli text)) ∧
    (∀ tag : String, tag.data ≠ "sms:".data →
      replaceKindTag tag (makeImportId sender date amountMilli text) ≠
        makeImportId sender date amountMilli text) := by
  have hk := makeImportId_length sender date amountMilli text
  have hform := fun tag => replaceKindTag_makeImportId tag sender date amountMilli text
  have hdrop : ((makeImportId sender date amountMilli text).data.drop 4).length = 32 := by
    rw [List.length_drop, ← strLength_data, hk]
  have hparent : makeImportId sender date amountMilli text =
      "sms:" ++ String.mk ((makeImportId sender date amountMilli text).data.drop 4) := by
    have hd : (makeImportId sender date amountMilli text).data.drop 4 =
        (hexChars (sha256 (utf8Bytes (importRaw sender date amountMilli text)))).take 32 := by
      rw [makeImportId_data]
      rfl
    rw [hd]
    rfl
  refine ⟨hk, by rw [hk]; decide, hform, ?_, ?_, ?_⟩
  · intro tag htag
    have hl : (replaceKindTag tag (makeImportId sender date amountMilli text)).length = 36 := by
      rw [hform tag, strLength_data, strApp_data, List.length_append]
      have hmk : (String.mk ((makeImportId sender date amountMilli text).data.drop 4)).data =
          (makeImportId sender date amountMilli text).data.drop 4 := rfl
      rw [hmk, hdrop, htag]
    exact ⟨hl, by rw [hl]; decide⟩
  · intro t1 t2 hne
    rw [hform t1, hform t2]
    exact tagged_ne t1 t2 _ hne
  · intro tag hne
    rw [hform tag]
    conv_rhs => rw [hparent]
    exact tagged_ne tag "sms:" _ hne

/-- Witness for C6, at concrete tags and a concrete message. -/
theorem derivedKeys_spec_witness :
    (replaceKindTag "fee:"
      (makeImportId "Absa" "2026-01-01T18:05:00.000Z" 100000 "body")).length = 36 ∧
    replaceKindTag "fee:" (makeImportId "Absa" "2026-01-01T18:05:00.000Z" 100000 "body") ≠
      replaceKindTag "ntf:" (makeImportId "Absa" "2026-01-01T18:05:00.000Z" 100000 "body") ∧
    replaceKindTag "plt:" (makeImportId "Absa" "2026-01-01T18:05:00.000Z" 100000 "body") ≠
      replaceKindTag "xfr:" (makeImportId "Absa" "2026-01-01T18:05:00.000Z" 100000 "body") ∧
    replaceKindTag "xfr:" (makeImportId "Absa" "2026-01-01T18:05:00.000Z" 100000 "body") ≠
      makeImportId "Absa" "2026-01-01T18:05:00.000Z" 100000 "body" :=
  ⟨((derivedKeys_spec "Absa" "2026-01-01T18:05:00.000Z" 100000 "body").2.2.2.1 "fee:"
      (by decide)).1,
   (derivedKeys_spec "Absa" "2026-01-01T18:05:00.000Z" 100000 "body").2.2.2.2.1 "fee:" "ntf:"
      (by decide),
   (derivedKeys_spec "Absa" "2026-01-01T18:05:00.000Z" 100000 "body").2.2.2.2.1 "plt:" "xfr:"
      (by decide),
   (derivedKeys_spec "Absa" "2026-01-01T18:05:00.000Z" 100000 "body").2.2.2.2.2 "xfr:"
      (by decide)⟩

/-- C1 (code bug): the webhook orchestrator of `sms-webhook/index.ts` passes
only the calendar date (`receivedAtIso.slice(0, 10)`) to `makeImportId`, so
two messages identical except for the time-of-day of their timestamps receive
the *same* primary idempotency key — against `makeImportId`'s own documented
contract. Calling `makeImportId` with the full timestamps, as the later
orchestrator revision does, yields distinct keys. -/
theorem webhookImportId_timeOfDay_collision :
    ("2026-01-01T18:05:00.000Z" : String) ≠ "2026-01-01T18:09:00.000Z" ∧
    strTake "2026-01-01T18:05:00.000Z" 10 = strTake "2026-01-01T18:09:00.000Z" 10 ∧
    webhookImportId "Absa" "2026-01-01T18:05:00.000Z"
        "You have sent ZMW 100.00 to John Doe." 100 =
      webhookImportId "Absa" "2026-01-01T18:09:00.000Z"
        "You have sent ZMW 100.00 to John Doe." 100 ∧
    makeImportId "Absa" "2026-01-01T18:05:00.000Z" (toMilliunits 100)
        "You have sent ZMW 100.00 to John Doe." ≠
      makeImportId "Absa" "2026-01-01T18:09:00.000Z" (toMilliunits 100)
        "You have sent ZMW 100.00 to John Doe." := by
  refine ⟨by decide, by decide, ?_, ?_⟩
  · unfold webhookImportId
    rw [show strTake "2026-01-01T18:05:00.000Z" 10 =
      strTake "2026-01-01T18:09:00.000Z" 10 from rfl]
  · intro he
    have hdata := congrArg String.data he
    rw [makeImportId_data, makeImportId_data] at hdata
    simp only [List.cons.injEq, true_and] at hdata
    have h32 := congrArg (fun l => l.take 32) hdata
    revert h32
    with_unfolding_all decide

/-- C4 (amended): in the correlation-aware orchestrator revision, when the
extracted payee name has no case-insensitive match among non-deleted payees,
the submitted primary transaction carries neither a payee id nor a payee
display name; the build never sets `payee_name` at all. -/
theorem primaryTxn_noNewPayee (cache : YnabCache) (accountId : String)
    (payee category memo : Option String) (amount : ℚ) (direction : Direction)
    (sender receivedAtIso text : String) (name : String)
    (hp : payee = some name) (hmiss : findPayeeByName cache name = none) :
    (buildPrimaryTxn cache accountId payee category memo amount direction
      sender receivedAtIso text).payee_id = none ∧
    (buildPrimaryTxn cache accountId payee category memo amount direction
      sender receivedAtIso text).payee_name = none ∧
    (buildPrimaryTxn cache accountId payee category memo amount direction
      sender receivedAtIso text).memo = memo.getD (strTake text 200) := by
  subst hp
  refine ⟨?_, rfl, rfl⟩
  simp [buildPrimaryTxn, getPayeeIdByName, hmiss]

/-- Witness for C4's amended theorem: a concrete unmatched payee. -/
theorem primaryTxn_noNewPayee_witness :
    (buildPrimaryTxn ⟨[], [], []⟩ "acc1" (some "John Doe") none none 100
      Direction.outflow "AirtelMoney" "2026-01-01T18:05:00.000Z"
      "Sent to John Doe").payee_id = none ∧
    (buildPrimaryTxn ⟨[], [], []⟩ "acc1" (some "John Doe") none none 100
      Direction.outflow "AirtelMoney" "2026-01-01T18:05:00.000Z"
      "Sent to John Doe").payee_name = none ∧
    (buildPrimaryTxn ⟨[], [], []⟩ "acc1" (some "John Doe") none none 100
      Direction.outflow "AirtelMoney" "2026-01-01T18:05:00.000Z"
      "Sent to John Doe").memo = "Sent to John Doe" :=
  have h := primaryTxn_noNewPayee ⟨[], [], []⟩ "acc1" (some "John Doe") none none 100
    Direction.outflow "AirtelMoney" "2026-01-01T18:05:00.000Z" "Sent to John Doe"
    "John Doe" rfl rfl
  ⟨h.1, h.2.1, by rw [h.2.2]; decide⟩

/-- C4 (counterexample to the claim as stated): the earlier webhook revision
(`sms-webhook/index.ts`) passes the extracted payee name as `payee_name` even
when it matches no existing payee, so the submitted transaction does carry a
payee display name. -/
theorem webhookTxn_payeeName_counter :
    findPayeeByName ⟨[], [], []⟩ "John Doe" = none ∧
    (webhookBuildTxn ⟨[], [], []⟩ "acc1" (some "John Doe") none none 100
      Direction.outflow "AirtelMoney" "2026-01-01T18:05:00.000Z"
      "Sent to John Doe").payee_name = some "John Doe" := by
  exact ⟨rfl, rfl⟩

/-- C7 (amended): the submitted primary entry's amount is the milliunit amount
times +1 for `inflow` and −1 for `outflow`; its memo is the classifier's
cleaned text with a truncated 200-character prefix of the raw body as
fallback; it is always unapproved (`approved: false`, the manual-review gate)
— but its clearing status is the string `"cleared"`, not an uncleared state. -/
theorem primaryTxn_build_spec (cache : YnabCache) (accountId : String)
    (payee category memo : Option String) (amount : ℚ) (direction : Direction)
    (sender receivedAtIso text : String) :
    (buildPrimaryTxn cache accountId payee category memo amount direction
      sender receivedAtIso text).amount =
        toMilliunits amount * getSign (some direction) ∧
    getSign (some Direction.inflow) = 1 ∧
    getSign (some Direction.outflow) = -1 ∧
    (buildPrimaryTxn cache accountId payee category memo amount direction
      sender receivedAtIso text).memo = memo.getD (strTake text 200) ∧
    (buildPrimaryTxn cache accountId payee category memo amount direction
      sender receivedAtIso text).approved = false ∧
    (buildPrimaryTxn cache accountId payee category memo amount direction
      sender receivedAtIso text).import_id =
        makeImportId sender receivedAtIso (toMilliunits amount) text ∧
    (buildPrimaryTxn cache accountId payee category memo amount direction
      sender receivedAtIso text).cleared = "cleared" :=
  ⟨rfl, rfl, by decide, rfl, rfl, rfl, rfl⟩

/-- C7 (counterexample to the claim as stated): the entry is submitted with
clearing status `"cleared"`, not an uncleared-for-review state. -/
theorem primaryTxn_cleared_counter :
    (buildPrimaryTxn ⟨[], [], []⟩ "acc1" none none none 100 Direction.outflow
      "AirtelMoney" "2026-01-01T18:05:00.000Z" "body").cleared = "cleared" ∧
    ("cleared" : String) ≠ "uncleared" := by
  exact ⟨rfl, by decide⟩

/-- A primary record stored just before midnight, used to exhibit the
follow-up fee's dating. -/
def midnightPrimary : SmsContextRecord :=
  ⟨some "p1", "Absa", "You have sent ZMW 200.00 from account ending 4983.",
   "2026-01-01T23:58:00.000Z", some 200, some "outflow", some "4983", some "t1",
   some "acc1", some "sms:0123456789abcdef0123456789abcdef", true, none, false⟩

/-- C3 (counterexample to the claim as stated): a follow-up arriving just
after midnight posts its correlated fee dated with the *follow-up's* receipt
date (2026-01-02), not the primary record's date (2026-01-01), and persists no
follow-up↔primary link (`linkToCorrelation` is never invoked). -/
theorem followUp_primaryDate_link_counter :
    (followUpBranch true [midnightPrimary] "2026-01-01T23:56:00.000Z" "Absa"
      "2026-01-02T00:01:00.000Z" ⟨[], [], []⟩ none (some "0951234567") none 0
      true).created.map (·.account_id) = ["acc1"] ∧
    (followUpBranch true [midnightPrimary] "2026-01-01T23:56:00.000Z" "Absa"
      "2026-01-02T00:01:00.000Z" ⟨[], [], []⟩ none (some "0951234567") none 0
      true).created.map (·.date) = ["2026-01-02"] ∧
    (followUpBranch true [midnightPrimary] "2026-01-01T23:56:00.000Z" "Absa"
      "2026-01-02T00:01:00.000Z" ⟨[], [], []⟩ none (some "0951234567") none 0
      true).created.map (·.amount) = [-10000] ∧
    (followUpBranch true [midnightPrimary] "2026-01-01T23:56:00.000Z" "Absa"
      "2026-01-02T00:01:00.000Z" ⟨[], [], []⟩ none (some "0951234567") none 0
      true).created.map (·.import_id) =
      ["xfr:0123456789abcdef0123456789abcdef"] ∧
    strTake midnightPrimary.received_at 10 = "2026-01-01" ∧
    ("2026-01-02" : String) ≠ "2026-01-01" ∧
    (followUpBranch true [midnightPrimary] "2026-01-01T23:56:00.000Z" "Absa"
      "2026-01-02T00:01:00.000Z" ⟨[], [], []⟩ none (some "0951234567") none 0
      true).links = [] := by
  refine ⟨?_, ?_, ?_, ?_, by decide, by decide, ?_⟩ <;> with_unfolding_all decide

/-- C3 (amended): for a follow-up with a correlated primary and a resolved
transfer type whose configured fee against the primary's amount is positive,
exactly one fee entry is posted against the primary's account, dated with the
*follow-up's* receipt date, keyed by an `xfr:` tag replacement of the
primary's key; the primary is then marked `fee_applied`; the correlation link
is reported in the result only, never persisted. -/
theorem followUp_feePosting_amended (db : List SmsContextRecord)
    (cutoff sender receivedAtIso : String) (cache : YnabCache)
    (tTag : Option TransferType) (rPhone : Option String) (feeCat : Option String)
    (nowMs : Int) (primary : SmsContextRecord) (pid acc iid : String)
    (tt : TransferType) (f : ℚ)
    (hfind : findMatchingTransaction db sender none cutoff = some primary)
    (hid : primary.id = some pid)
    (hacc : primary.ynab_account_id = some acc)
    (hiid : primary.import_id = some iid)
    (htt : resolveFollowUpTransferType tTag rPhone = some tt)
    (httu : tt ≠ TransferType.unknown)
    (hfee : (calculateFee feeCat (senderToProvider sender) tt
      (primary.amount.getD 0)).fee = some f)
    (hpos : 0 < f) :
    (followUpBranch true db cutoff sender receivedAtIso cache tTag rPhone feeCat
      nowMs true).sent = true ∧
    (followUpBranch true db cutoff sender receivedAtIso cache tTag rPhone feeCat
      nowMs true).created =
      [⟨acc, strTake receivedAtIso 10, -(toMilliunits f),
        (calculateFee feeCat (senderToProvider sender) tt
          (primary.amount.getD 0)).payee.bind (getPayeeIdByName cache),
        none,
        "Transfer Fee (" ++ ttName tt ++ "): Ref: " ++ iid,
        "cleared", false, replaceKindTag "xfr:" iid,
        (calculateFee feeCat (senderToProvider sender) tt
          (primary.amount.getD 0)).category.bind (getCategoryIdByName cache)⟩] ∧
    (followUpBranch true db cutoff sender receivedAtIso cache tTag rPhone feeCat
      nowMs true).feeApplied = [pid] ∧
    (followUpBranch true db cutoff sender receivedAtIso cache tTag rPhone feeCat
      nowMs true).links = [] := by
  unfold followUpBranch
  simp only [Bool.not_true, Bool.false_eq_true, if_false, hfind, htt, hacc, hiid,
    hid, hfee, if_neg httu, if_pos hpos, Option.getD_some, if_true]
  exact ⟨trivial, trivial, trivial, trivial⟩

/-- Witness for C3's amended theorem at the concrete midnight scenario. -/
theorem followUp_feePosting_amended_witness :
    (followUpBranch true [midnightPrimary] "2026-01-01T23:56:00.000Z" "Absa"
      "2026-01-02T00:01:00.000Z" ⟨[], [], []⟩ none (some "0951234567") none 0
      true).sent = true ∧
    (followUpBranch true [midnightPrimary] "2026-01-01T23:56:00.000Z" "Absa"
      "2026-01-02T00:01:00.000Z" ⟨[], [], []⟩ none (some "0951234567") none 0
      true).feeApplied = ["p1"] :=
  have h := followUp_feePosting_amended [midnightPrimary] "2026-01-01T23:56:00.000Z"
    "Absa" "2026-01-02T00:01:00.000Z" ⟨[], [], []⟩ none (some "0951234567") none 0
    midnightPrimary "p1" "acc1" "sms:0123456789abcdef0123456789abcdef"
    TransferType.to_mobile 10
    (by with_unfolding_all decide) rfl rfl rfl (by with_unfolding_all decide)
    (by decide) (by with_unfolding_all decide) (by decide)
  ⟨h.1, h.2.2.1⟩
